import Mathlib

/-!
Verification development for the PDFEditor repository.

The definitions below are a shallow embedding of the Python sources:
  * `src/pdfeditor/stamp_page_numbers.py` (page-number stamper),
  * `src/pdfeditor/detect_empty.py` (structural detector),
  * `src/pdfeditor/detect_render.py` (render ink sampler),
  * `src/pdfeditor/processor.py` (decision combiner),
  * `src/pdfeditor/rewrite.py` and `src/pdfeditor/models.py` (page rewriter).

Modelling conventions:
  * Python floats are modelled as rationals (`ℚ`); byte values as `ℕ`.
  * Fallible Python code (code that may raise) is modelled with
    `Except String`; a caught exception corresponds to matching on
    `.error`.
  * Python lists used as stacks (`append`/`pop`) are modelled as Lean
    lists with the top at the head.
  * Purely diagnostic fields that provably never influence a decision
    (debug records, last-seen state mirrors, min/max channel
    diagnostics) are not modelled.
-/

namespace PDFEditor

/-- Python's `round` for rationals: round half to even (banker's rounding),
    as used by `int(round(x))` in `_box_in_to_pixel_bounds`. -/
def pythonRound (q : ℚ) : ℤ :=
  let f : ℤ := ⌊q⌋
  let frac : ℚ := q - (f : ℚ)
  if frac < 1 / 2 then f
  else if 1 / 2 < frac then f + 1
  else if f % 2 = 0 then f else f + 1

/-- Python's `int(x)` truncation toward zero for rationals. -/
def pythonTrunc (q : ℚ) : ℤ :=
  if q < 0 then -⌊-q⌋ else ⌊q⌋

/-- A rendered bitmap as exposed by pypdfium2: `width`, `height`,
    `stride`, `n_channels` and the raw BGR(A) byte buffer. -/
structure Bitmap where
  width : ℕ
  height : ℕ
  stride : ℕ
  n_channels : ℕ
  buffer : List ℕ
deriving DecidableEq, Repr

/-- One sampled pixel (red, green, blue, optional alpha). -/
structure Pixel where
  red : ℕ
  green : ℕ
  blue : ℕ
  alpha : Option ℕ
deriving DecidableEq, Repr

/-- Read one byte of the raw buffer.  Out-of-range reads are modelled as 0;
    pypdfium2 buffers always cover `stride * height` bytes. -/
def byteAt (bm : Bitmap) (i : ℕ) : ℕ :=
  bm.buffer.getD i 0

/-- Decode the pixel at `(x, y)`: the buffer layout is BGR(A), so
    `blue = raw[offset]`, `green = raw[offset+1]`, `red = raw[offset+2]`,
    and `alpha = raw[offset+3]` when at least four channels are present.
    This is the common pixel-decoding of `_sample_box_region`
    (stamp_page_numbers.py) and `_measure_ink_ratio` (detect_render.py). -/
def pixelAt (bm : Bitmap) (x y : ℕ) : Pixel :=
  let offset := y * bm.stride + x * bm.n_channels
  { red := byteAt bm (offset + 2)
    green := byteAt bm (offset + 1)
    blue := byteAt bm offset
    alpha := if 4 ≤ bm.n_channels then some (byteAt bm (offset + 3)) else none }

/-- `_pixel_is_white` (identical in detect_render.py and
    stamp_page_numbers.py): a pixel is background when its alpha is 0, or
    all of R, G, B are at least `whiteThreshold`. -/
def pixelIsWhite (p : Pixel) (whiteThreshold : ℕ) : Bool :=
  if p.alpha = some 0 then true
  else decide (whiteThreshold ≤ p.red) && decide (whiteThreshold ≤ p.green) &&
    decide (whiteThreshold ≤ p.blue)

/-- The pixels visited by the sampling loops
    `for y in range(y0, y1): for x in range(x0, x1)`. -/
def regionPixels (bm : Bitmap) (x0 x1 y0 y1 : ℕ) : List Pixel :=
  (List.range' y0 (y1 - y0)).flatMap fun y =>
    (List.range' x0 (x1 - x0)).map fun x => pixelAt bm x y

/-- `_box_in_to_pixel_bounds` of stamp_page_numbers.py: convert a box in
    inches from the bottom-left origin into clamped pixel bounds
    `(x0, y0, x1, y1)` of the top-left-origin bitmap. -/
def boxInToPixelBounds (boxIn : ℚ × ℚ × ℚ × ℚ) (widthPx heightPx dpi : ℕ) :
    ℕ × ℕ × ℕ × ℕ :=
  let xIn := boxIn.1
  let yIn := boxIn.2.1
  let widthIn := boxIn.2.2.1
  let heightIn := boxIn.2.2.2
  let leftPx := pythonRound (xIn * dpi)
  let bottomPx := pythonRound (yIn * dpi)
  let rightPx := pythonRound ((xIn + widthIn) * dpi)
  let topPx := pythonRound ((yIn + heightIn) * dpi)
  let clampW : ℤ → ℕ := fun v => (max 0 (min (widthPx : ℤ) v)).toNat
  let clampH : ℤ → ℕ := fun v => (max 0 (min (heightPx : ℤ) v)).toNat
  (clampW leftPx, clampH ((heightPx : ℤ) - topPx),
    clampW rightPx, clampH ((heightPx : ℤ) - bottomPx))

/-- `_median_channel` of stamp_page_numbers.py: sort the sampled values
    ascending and take the element at index `len // 2`.  (On the empty
    list, where Python would raise IndexError, the default 0 is returned;
    the function is only invoked on non-empty samples.) -/
def medianChannel (values : List ℕ) : ℕ :=
  let ordered := values.insertionSort (· ≤ ·)
  ordered.getD (ordered.length / 2) 0

/-- The dictionary returned by `_sample_box_region`
    (stamp_page_numbers.py, lines 163-217). -/
structure RegionStats where
  cover_color_rgb : ℕ × ℕ × ℕ
  ink_ratio : ℚ
  invalid_sample_area : Bool
  nonwhite_pixel_count : ℕ
  sample_box_px : ℕ × ℕ × ℕ × ℕ
  sampled_pixel_count : ℕ
deriving DecidableEq, Repr

/-- `_sample_box_region` of stamp_page_numbers.py: sample all pixels of
    the configured box, count non-background pixels, and take the
    per-channel median as the candidate cover color. -/
def sampleBoxRegion (bm : Bitmap) (boxIn : ℚ × ℚ × ℚ × ℚ) (dpi whiteThreshold : ℕ) :
    RegionStats :=
  let bounds := boxInToPixelBounds boxIn bm.width bm.height dpi
  let x0 := bounds.1
  let y0 := bounds.2.1
  let x1 := bounds.2.2.1
  let y1 := bounds.2.2.2
  let pixelCount := (x1 - x0) * (y1 - y0)
  if pixelCount = 0 then
    { cover_color_rgb := (255, 255, 255)
      ink_ratio := 0
      invalid_sample_area := true
      nonwhite_pixel_count := 0
      sample_box_px := (x0, y0, x1, y1)
      sampled_pixel_count := 0 }
  else
    let pxs := regionPixels bm x0 x1 y0 y1
    let nonwhite := (pxs.filter fun p => ! pixelIsWhite p whiteThreshold).length
    { cover_color_rgb :=
        (medianChannel (pxs.map Pixel.red), medianChannel (pxs.map Pixel.green),
          medianChannel (pxs.map Pixel.blue))
      ink_ratio := (nonwhite : ℚ) / (pixelCount : ℚ)
      invalid_sample_area := false
      nonwhite_pixel_count := nonwhite
      sample_box_px := (x0, y0, x1, y1)
      sampled_pixel_count := pixelCount }

/-- Possible stamp actions recorded per retained page. -/
inductive StampAction where
  | stamped
  | stamped_forced
  | skipped_guardrail
deriving DecidableEq, Repr

/-- One iteration of the per-page loop of `stamp_page_numbers`
    (stamp_page_numbers.py, lines 62-112), given the sampled region
    statistics of the page's configured box: the guardrail
    `if not force and (invalid_sample_area or ink_ratio > ink_threshold)`
    skips the page (`continue`, no overlay merged), otherwise the overlay
    covering the box is merged onto the page and the action is
    `stamped_forced` when `force` is set, else `stamped`.  The second
    component records whether the page content was modified
    (`page.merge_page(overlay)` executed). -/
def stampPageStep (force : Bool) (inkThreshold : ℚ) (stats : RegionStats) :
    StampAction × Bool :=
  if !force && (stats.invalid_sample_area || decide (inkThreshold < stats.ink_ratio)) then
    (StampAction.skipped_guardrail, false)
  else
    (if force then StampAction.stamped_forced else StampAction.stamped, true)

/-- A value `m` is a median of the list `l`: it occurs in `l`, at least
    half of the entries of `l` are `≤ m`, and at least half are `≥ m`.
    (For an odd number of entries this pins down the unique middle value
    of the sorted list.) -/
def IsMedianOf (m : ℕ) (l : List ℕ) : Prop :=
  m ∈ l ∧ l.length ≤ 2 * l.countP (fun v => decide (v ≤ m)) ∧
    l.length ≤ 2 * l.countP (fun v => decide (m ≤ v))

/-- A resolved PDF object as the structural detector observes it through
    pypdf.  Indirect references are resolved eagerly (`_resolve_object`
    dereferences them), so they do not appear in the model.  A `dict`
    models a pypdf DictionaryObject (a Python dict, hence unique keys);
    `arr` an ArrayObject; `name` a NameObject (a `str` subclass);
    `num` a NumberObject or FloatObject; `other` any further object
    (streams, booleans, ...) that is neither dict-like nor array-like. -/
inductive PdfValue where
  | dict (entries : List (String × PdfValue))
  | arr (items : List PdfValue)
  | num (value : ℚ)
  | name (value : String)
  | other
deriving Repr

/-- Python dict lookup on the resolved entry list (keys are unique). -/
def lookupKey (entries : List (String × PdfValue)) (key : String) : Option PdfValue :=
  (entries.find? fun e => e.1 == key).map (·.2)

/-- `_resolve_dict`: `None` resolves to the empty dict, a dictionary to
    its entries, and anything without `.items` raises TypeError. -/
def resolveDict : Option PdfValue → Except String (List (String × PdfValue))
  | none => .ok []
  | some (.dict entries) => .ok entries
  | some _ => .error "TypeError: Expected a PDF dictionary object."

/-- `_dict_has_entries`: `None` has no entries, a dictionary is tested for
    non-emptiness, and anything without `.items` raises TypeError. -/
def dictHasEntries : Option PdfValue → Except String Bool
  | none => .ok false
  | some (.dict entries) => .ok (!entries.isEmpty)
  | some _ => .error "TypeError: Expected a PDF dictionary object."

/-- `_dict_count`: like `_dict_has_entries` but returning the entry count. -/
def dictCount : Option PdfValue → Except String ℕ
  | none => .ok 0
  | some (.dict entries) => .ok entries.length
  | some _ => .error "TypeError: Expected a PDF dictionary object."

/-- `_count_entries`: `None` counts as 0; arrays, dictionaries and name
    strings expose `__len__`; numbers and other objects raise TypeError. -/
def countEntries : Option PdfValue → Except String ℕ
  | none => .ok 0
  | some (.arr items) => .ok items.length
  | some (.dict entries) => .ok entries.length
  | some (.name s) => .ok s.length
  | some _ => .error "TypeError: Expected a PDF array-like object."

/-- The byte values for which Python's `chr(byte).isspace()` is true
    (`_strip_pdf_comments_and_whitespace` tests whitespace this way):
    TAB, LF, VT, FF, CR, FS, GS, RS, US, SPACE, NEL, NBSP. -/
def pythonSpaceBytes : List ℕ := [9, 10, 11, 12, 13, 28, 29, 30, 31, 32, 133, 160]

/-- Loop body of `_strip_pdf_comments_and_whitespace`, with the
    `in_comment` flag made explicit. -/
def stripBytesAux : Bool → List ℕ → List ℕ
  | _, [] => []
  | true, b :: rest =>
    if b = 10 ∨ b = 13 then stripBytesAux false rest else stripBytesAux true rest
  | false, b :: rest =>
    if b = 37 then stripBytesAux true rest
    else if b ∈ pythonSpaceBytes then stripBytesAux false rest
    else b :: stripBytesAux false rest

/-- `_strip_pdf_comments_and_whitespace`: drop PDF comments (percent sign
    up to end of line) and whitespace from a content-stream payload. -/
def stripPdfCommentsAndWhitespace (content : List ℕ) : List ℕ :=
  stripBytesAux false content

/-- One operand of a content-stream operation, as tokenised by pypdf.
    Numbers and names are the operand kinds the detector inspects;
    `strObj` and `arrObj` stand for string and array operands. -/
inductive Operand where
  | num (value : ℚ)
  | name (value : String)
  | strObj
  | arrObj
deriving Repr

/-- `_operand_at`: positional operand access that never raises. -/
def operandAt (operands : List Operand) (index : ℕ) : Option Operand :=
  operands.get? index

/-- `_to_float` on an optional operand: numeric operands convert, `None`
    and non-numeric operands fall back to the default `none`
    (`float(...)` raising ValueError/TypeError). -/
def toFloatOperand : Option Operand → Option ℚ
  | some (.num q) => some q
  | _ => none

/-- `_to_int` on an optional operand with a default: numeric operands
    truncate toward zero (`int(...)`), everything else keeps the default. -/
def toIntOperand (operand : Option Operand) (default : ℤ) : ℤ :=
  match operand with
  | some (.num q) => pythonTrunc q
  | _ => default

/-- `_to_float` on an optional PDF dictionary value (`/ca`, `/CA`). -/
def toFloatValue : Option PdfValue → Option ℚ
  | some (.num q) => some q
  | _ => none

/-- `_name_value`: `None` stays `None`; every other operand is turned into
    its `str(...)` form.  For non-name operands the exact Python rendering
    is irrelevant (it is only used for dictionary lookups and notes), so a
    fixed tag is used for string/array operands. -/
def nameValue : Option Operand → Option String
  | none => none
  | some (.name s) => some s
  | some (.num q) => some (toString q)
  | some .strObj => some "str_operand"
  | some .arrObj => some "array_operand"

/-- `VisibilityState` (the dict built by `_default_visibility_state`). -/
structure VisibilityState where
  fill_opacity : ℚ := 1
  stroke_opacity : ℚ := 1
  text_rendering_mode : ℤ := 0
  font_size : Option ℚ := none
  extgstate_name : Option String := none
deriving DecidableEq, Repr

/-- `_default_visibility_state`. -/
def defaultVisibilityState : VisibilityState := {}

/-- The entries of the `details` dict that influence decisions or record
    notes (pure last-seen diagnostics are omitted). -/
structure Details where
  notes : List String := []
  extgstate_hits : List String := []
  state_ops_found : List String := []
  paint_ops_found : List String := []
  paint_ops_seen_count : ℕ := 0
  invisible_text_events_count : ℕ := 0
  invisible_path_events_count : ℕ := 0
  visible_mark_found : Bool := false
deriving DecidableEq, Repr

/-- The fresh `details` record of `is_page_empty_structural`. -/
def initialDetails : Details := {}

/-- `_append_limited`: append to a diagnostic list only while it holds
    fewer than `limit` (default 10) entries. -/
def appendLimited (target : List String) (value : String) (limit : ℕ := 10) :
    List String :=
  if limit ≤ target.length then target else target ++ [value]

/-- `_record_paint_op`. -/
def recordPaintOp (d : Details) (operatorName : String) : Details :=
  { d with
    paint_ops_seen_count := d.paint_ops_seen_count + 1
    paint_ops_found := appendLimited d.paint_ops_found operatorName }

/-- `_record_state_op`. -/
def recordStateOp (d : Details) (operatorName : String) : Details :=
  { d with state_ops_found := appendLimited d.state_ops_found operatorName }

/-- The single-quote and double-quote text-show operator names. -/
def squoteOp : String := String.mk [Char.ofNat 39]

/-- The double-quote text-show operator name. -/
def dquoteOp : String := String.mk [Char.ofNat 34]

/-- `STATE_OPERATORS` of detect_empty.py. -/
def STATE_OPERATORS : List String :=
  ["BT", "CS", "ET", "G", "J", "K", "M", "Q", "RG", "SC", "SCN", "TD", "TL",
   "Tf", "Tm", "Tr", "Ts", "Tw", "Tz", "W", "W*", "c", "cm", "cs", "d", "g",
   "gs", "h", "i", "j", "k", "l", "m", "n", "q", "re", "rg", "ri", "sc",
   "scn", "v", "w", "y"]

/-- `TEXT_SHOW_OPERATORS` of detect_empty.py. -/
def TEXT_SHOW_OPERATORS : List String := [dquoteOp, squoteOp, "TJ", "Tj"]

/-- `PATH_PAINT_OPERATORS` of detect_empty.py. -/
def PATH_PAINT_OPERATORS : List String :=
  ["B", "B*", "F", "S", "b", "b*", "f", "f*", "s", "sh"]

/-- `_opacity_visible`: visible when either opacity is strictly positive. -/
def opacityVisible (s : VisibilityState) : Bool :=
  decide (0 < s.fill_opacity) || decide (0 < s.stroke_opacity)

/-- `_text_is_visible`: invisible when the text rendering mode is 3, the
    font size is (numerically) zero, or both opacities are `≤ 0`. -/
def textIsVisible (s : VisibilityState) : Bool :=
  if s.text_rendering_mode = 3 then false
  else
    match s.font_size with
    | some fs => if fs = 0 then false else opacityVisible s
    | none => opacityVisible s

/-- `_apply_extgstate`: an unresolvable name records a note
    `unknown_extgstate`; a non-dictionary value records
    `invalid_extgstate`; a dictionary updates the opacities from its
    `/ca` and `/CA` entries when present. -/
def applyExtgstate (state : VisibilityState) (value : Option PdfValue)
    (notes : List String) : VisibilityState × List String :=
  match value with
  | none => (state, appendLimited notes "unknown_extgstate")
  | some (.dict entries) =>
    let fillOpacity := toFloatValue (lookupKey entries "/ca")
    let strokeOpacity := toFloatValue (lookupKey entries "/CA")
    ({ state with
        fill_opacity := fillOpacity.getD state.fill_opacity
        stroke_opacity := strokeOpacity.getD state.stroke_opacity }, notes)
  | some _ => (state, appendLimited notes "invalid_extgstate")

/-- The operator loop of `_evaluate_operations` (detect_empty.py,
    lines 305-389).  The graphics-state stack has its top at the head.
    The result's first component is `some (is_empty, reason)` when the
    loop terminates early with a visible mark, `none` when the scan
    completes. -/
def evalOps (extg : List (String × PdfValue)) :
    List (List Operand × String) → VisibilityState → List VisibilityState →
    Details → Option (Bool × String) × Details
  | [], _, _, d => (none, d)
  | (operands, operatorName) :: rest, state, stack, d =>
    if operatorName == "INLINE IMAGE" then
      (some (false, "inline_image"),
        { recordPaintOp d "BI" with visible_mark_found := true })
    else
      let d := if STATE_OPERATORS.contains operatorName then
        recordStateOp d operatorName else d
      if operatorName == "q" then
        evalOps extg rest state (state :: stack) d
      else if operatorName == "Q" then
        match stack with
        | top :: stackRest => evalOps extg rest top stackRest d
        | [] =>
          evalOps extg rest state []
            { d with notes := appendLimited d.notes "graphics_state_underflow" }
      else if operatorName == "Tr" then
        evalOps extg rest
          { state with
            text_rendering_mode :=
              toIntOperand (operandAt operands 0) state.text_rendering_mode }
          stack d
      else if operatorName == "Tf" then
        evalOps extg rest
          { state with font_size := toFloatOperand (operandAt operands 1) } stack d
      else if operatorName == "gs" then
        match nameValue (operandAt operands 0) with
        | some extgstateName =>
          let d := { d with
            extgstate_hits := appendLimited d.extgstate_hits extgstateName }
          let state := { state with extgstate_name := some extgstateName }
          let applied := applyExtgstate state (lookupKey extg extgstateName) d.notes
          evalOps extg rest applied.1 stack { d with notes := applied.2 }
        | none =>
          evalOps extg rest state stack
            { d with notes := appendLimited d.notes "gs_without_name" }
      else if TEXT_SHOW_OPERATORS.contains operatorName then
        let d := recordPaintOp d operatorName
        if textIsVisible state then
          (some (false, "visible_text"), { d with visible_mark_found := true })
        else
          evalOps extg rest state stack
            { d with
              invisible_text_events_count := d.invisible_text_events_count + 1 }
      else if operatorName == "Do" then
        (some (false, "xobject_paint"),
          { recordPaintOp d operatorName with visible_mark_found := true })
      else if PATH_PAINT_OPERATORS.contains operatorName then
        let d := recordPaintOp d operatorName
        if opacityVisible state then
          (some (false, "visible_path_paint"), { d with visible_mark_found := true })
        else
          evalOps extg rest state stack
            { d with
              invisible_path_events_count := d.invisible_path_events_count + 1 }
      else
        evalOps extg rest state stack d

/-- A page's content stream as the detector consumes it: decoding the
    byte payload (`get_data()`) and tokenising into operations
    (`.operations`) may each raise. -/
structure ContentStream where
  data : Except String (List ℕ)
  operations : Except String (List (List Operand × String))

/-- One page as observed by `is_page_empty_structural`: its `/Resources`
    and `/Annots` values and its optional content stream
    (`page.get("/Contents")` / `page.get_contents()`). -/
structure Page where
  resources : Option PdfValue
  annots : Option PdfValue
  contents : Option ContentStream

/-- The `try` body of `is_page_empty_structural` (detect_empty.py,
    lines 136-223): resolves the resource subdictionaries and the
    annotation count, applies the decision order (XObject presence,
    annotations, missing contents, whitespace-only contents, no
    operations) and finally interprets the operator sequence. -/
def structuralCore (page : Page) (treatAnnotationsAsEmpty : Bool) :
    Except String (Bool × String) :=
  match resolveDict page.resources with
  | .error e => .error e
  | .ok resources =>
  match dictHasEntries (lookupKey resources "/XObject") with
  | .error e => .error e
  | .ok xobjectPresent =>
  match dictHasEntries (lookupKey resources "/Font") with
  | .error e => .error e
  | .ok _fontsPresent =>
  match dictCount (lookupKey resources "/ExtGState") with
  | .error e => .error e
  | .ok _extgstatesCount =>
  match countEntries page.annots with
  | .error e => .error e
  | .ok annotationsCount =>
  if xobjectPresent then .ok (false, "has_xobject")
  else if 0 < annotationsCount && !treatAnnotationsAsEmpty then
    .ok (false, "has_annotations")
  else
  match page.contents with
  | none => .ok (true, "no_contents")
  | some contents =>
  match contents.data with
  | .error e => .error e
  | .ok contentData =>
  if (stripPdfCommentsAndWhitespace contentData).isEmpty then
    .ok (true, "contents_whitespace_only")
  else
  match contents.operations with
  | .error e => .error e
  | .ok operations =>
  if operations.isEmpty then .ok (true, "no_paint_ops")
  else
  match resolveDict (lookupKey resources "/ExtGState") with
  | .error e => .error e
  | .ok extgstateResources =>
  match evalOps extgstateResources operations defaultVisibilityState []
      initialDetails with
  | (some result, _) => .ok result
  | (none, d) =>
    if 0 < d.paint_ops_seen_count then .ok (true, "only_invisible_paint")
    else .ok (true, "no_paint_ops")

/-- `is_page_empty_structural`: the surrounding `except Exception` turns
    any failure of the body into `(false, "unknown_structure")`. -/
def isPageEmptyStructural (page : Page) (treatAnnotationsAsEmpty : Bool) :
    Bool × String :=
  match structuralCore page treatAnnotationsAsEmpty with
  | .ok result => result
  | .error _ => (false, "unknown_structure")

/-- models.py `PageDecision` (the open-ended `details` diagnostic dict is
    not modelled; it never influences a decision). -/
structure PageDecision where
  page_index : ℕ
  is_empty : Bool
  reason : String
deriving DecidableEq, Repr

/-- The operation of claim C5's monotonicity property: add one entry to
    the page's `/XObject` resource subdictionary (creating the resource
    dictionary or the subdictionary when absent).  The rebuilt resource
    dictionary keeps unique keys, placing the updated `/XObject` entry
    first. -/
def addXObject (page : Page) (key : String) (v : PdfValue) : Page :=
  match page.resources with
  | some (.dict entries) =>
    let xobj : PdfValue :=
      match lookupKey entries "/XObject" with
      | some (.dict xs) => .dict ((key, v) :: xs)
      | _ => .dict [(key, v)]
    { page with
      resources := some (.dict (("/XObject", xobj) ::
        entries.filter fun e => !(e.1 == "/XObject"))) }
  | _ =>
    { page with resources := some (.dict [("/XObject", .dict [(key, v)])]) }

/-- `detect_page_decisions`: one structural decision per page, in order. -/
def detectPageDecisions (pages : List Page) (treatAnnotationsAsEmpty : Bool) :
    List PageDecision :=
  pages.enum.map fun pair =>
    let result := isPageEmptyStructural pair.2 treatAnnotationsAsEmpty
    { page_index := pair.1, is_empty := result.1, reason := result.2 }

/-- The measurement dictionary of `_measure_ink_ratio` (detect_render.py;
    min/max channel diagnostics omitted, they never influence decisions). -/
structure InkStats where
  ink_ratio : ℚ
  nonwhite_pixels : ℕ
  total_pixels_sampled : ℕ
  sample_box_px : ℕ × ℕ × ℕ × ℕ
deriving DecidableEq, Repr

/-- `_sample_bounds`: sample the whole bitmap (`all`) or inset by a
    fractional margin (`center`, margin count truncated with `int(...)`);
    any other mode raises ValueError.  Negative margins (never produced by
    the CLI) are out of model scope. -/
def sampleBounds (width height : ℕ) (sample : String) (centerMargin : ℚ) :
    Except String (ℕ × ℕ × ℕ × ℕ) :=
  if sample == "all" then .ok (0, width, 0, height)
  else if sample == "center" then
    let marginX := (pythonTrunc (width * centerMargin)).toNat
    let marginY := (pythonTrunc (height * centerMargin)).toNat
    .ok (marginX, max marginX (width - marginX), marginY, max marginY (height - marginY))
  else .error "Unsupported render sample mode"

/-- `_measure_ink_ratio` (detect_render.py, lines 142-226): only the white
    background model is implemented, at least three channels are required,
    a degenerate sample box yields a zero measurement, and otherwise the
    non-background pixel fraction of the sample box is measured. -/
def measureInkRatio (bm : Bitmap) (sample background : String)
    (whiteThreshold : ℕ) (centerMargin : ℚ) : Except String InkStats :=
  if background != "white" then
    .error "Only white background sampling is implemented."
  else if bm.n_channels < 3 then
    .error "Bitmap must expose at least three color channels."
  else
    match sampleBounds bm.width bm.height sample centerMargin with
    | .error e => .error e
    | .ok bounds =>
      let startX := bounds.1
      let endX := bounds.2.1
      let startY := bounds.2.2.1
      let endY := bounds.2.2.2
      let pixelCount := (endX - startX) * (endY - startY)
      if pixelCount = 0 then
        .ok { ink_ratio := 0
              nonwhite_pixels := 0
              total_pixels_sampled := 0
              sample_box_px := (startX, startY, endX, endY) }
      else
        let pxs := regionPixels bm startX endX startY endY
        let nonBackground := (pxs.filter fun p => ! pixelIsWhite p whiteThreshold).length
        .ok { ink_ratio := (nonBackground : ℚ) / (pixelCount : ℚ)
              nonwhite_pixels := nonBackground
              total_pixels_sampled := pixelCount
              sample_box_px := (startX, startY, endX, endY) }

/-- One iteration of the per-page loop of `detect_empty_pages_render`
    (detect_render.py, lines 57-133).  `renderResult` models
    `page.render(scale=dpi / 72)`, which may raise; any exception from
    rendering or sampling is caught per page and yields the fail-open
    decision `(is_empty := false, reason := "render_failed")`. -/
def renderPageDecision (pageIndex : ℕ) (renderResult : Except String Bitmap)
    (sample background : String) (whiteThreshold : ℕ)
    (centerMargin inkThreshold : ℚ) : PageDecision :=
  match renderResult with
  | .error _ => { page_index := pageIndex, is_empty := false, reason := "render_failed" }
  | .ok bm =>
    match measureInkRatio bm sample background whiteThreshold centerMargin with
    | .error _ =>
      { page_index := pageIndex, is_empty := false, reason := "render_failed" }
    | .ok stats =>
      let isEmpty := decide (stats.ink_ratio < inkThreshold)
      { page_index := pageIndex
        is_empty := isEmpty
        reason := if isEmpty then "ink_below_threshold" else "ink_above_threshold" }

/-- `detect_empty_pages_render`: one decision per page of the document,
    in page order. -/
def detectEmptyPagesRender (pages : List (Except String Bitmap))
    (sample background : String) (whiteThreshold : ℕ)
    (centerMargin inkThreshold : ℚ) : List PageDecision :=
  pages.enum.map fun pair =>
    renderPageDecision pair.1 pair.2 sample background whiteThreshold
      centerMargin inkThreshold

/-- `_combined_page_decision` (processor.py, lines 342-383): merge one
    aligned structural/render decision pair according to the mode. -/
def combinedPageDecision (pageIndex : ℕ) (structuralDecision : PageDecision)
    (renderDecision : Option PageDecision) (mode : String) : PageDecision :=
  let structuralIsEmpty := structuralDecision.is_empty
  let renderIsEmpty := match renderDecision with
    | some d => d.is_empty
    | none => false
  if mode == "structural" then
    { page_index := pageIndex
      is_empty := structuralIsEmpty
      reason := if structuralIsEmpty then "structural_empty" else "non_empty" }
  else if mode == "render" then
    { page_index := pageIndex
      is_empty := renderIsEmpty
      reason := if renderIsEmpty then "render_empty" else "non_empty" }
  else if structuralIsEmpty && renderIsEmpty then
    { page_index := pageIndex, is_empty := true, reason := "both_empty" }
  else if structuralIsEmpty then
    { page_index := pageIndex, is_empty := true, reason := "structural_empty" }
  else if renderIsEmpty then
    { page_index := pageIndex, is_empty := true, reason := "render_empty" }
  else
    { page_index := pageIndex, is_empty := false, reason := "non_empty" }

/-- `_combine_decisions` (processor.py, lines 312-339): in `structural`
    mode the render pass is ignored; otherwise the render decisions must
    exist and be index-aligned with the structural ones. -/
def combineDecisions (structuralDecisions : List PageDecision)
    (renderDecisions : Option (List PageDecision)) (mode : String) :
    Except String (List PageDecision) :=
  if mode == "structural" then
    .ok (structuralDecisions.map fun d =>
      combinedPageDecision d.page_index d none mode)
  else
    match renderDecisions with
    | none => .error "Render decisions are required for render-based modes."
    | some rds =>
      if structuralDecisions.length ≠ rds.length then
        .error "Structural and render decisions must cover the same number of pages."
      else
        .ok ((structuralDecisions.zip rds).map fun pair =>
          combinedPageDecision pair.1.page_index pair.1 (some pair.2) mode)

/-- Lowercase one character, ASCII-style, for the IGNORECASE matching of
    `EDITED_NAME_PATTERN`. -/
def asciiLower (c : Char) : Char :=
  if c.isUpper then c.toLower else c

/-- Decimal digit test for the `\d` character class of the pattern
    (restricted to ASCII digits; the filenames involved are ASCII). -/
def isAsciiDigit (c : Char) : Bool :=
  decide (c.val ≥ 48) && decide (c.val ≤ 57)

/-- After `.edited.`, the numbered alternative of `EDITED_NAME_PATTERN`:
    one or more digits followed by `.pdf` at the end of the name. -/
def digitsDotPdf : List Char → Bool
  | [] => false
  | c :: rest =>
    isAsciiDigit c && (rest == ['.', 'p', 'd', 'f'] || digitsDotPdf rest)

/-- The tail of the pattern after the literal `.edited`:
    either `.pdf` at the end, or `.` followed by digits and `.pdf`. -/
def editedTailMatch : List Char → Bool
  | [] => false
  | c :: rest =>
    decide (c = '.') && (rest == ['p', 'd', 'f'] || digitsDotPdf rest)

/-- Consume the literal `pat` from the front of `l`, returning the
    remainder when `l` starts with `pat`. -/
def stripLit : List Char → List Char → Option (List Char)
  | [], rest => some rest
  | _ :: _, [] => none
  | p :: ps, c :: cs => if c = p then stripLit ps cs else none

/-- Match `EDITED_NAME_PATTERN` anchored at the start of `cs` and at the
    end of the string (the pattern ends with `\Z`): the literal `.edited`,
    then `editedTailMatch`. -/
def editedMatchAt (cs : List Char) : Bool :=
  match stripLit ".edited".data cs with
  | some rest => editedTailMatch rest
  | none => false

/-- `re.search`: try the pattern at every start position. -/
def editedSearch : List Char → Bool
  | [] => false
  | c :: rest => editedMatchAt (c :: rest) || editedSearch rest

/-- `EDITED_NAME_PATTERN.search(name)` (rewrite.py, line 15): the
    case-insensitive regular expression `\.edited(?:\.\d+)?\.pdf\Z`,
    with IGNORECASE modelled by lowercasing the name first. -/
def editedNameSearch (name : String) : Bool :=
  editedSearch (name.data.map asciiLower)

/-- Specification-side reading of the output naming rule: the lowercased
    filename ends in `.edited.pdf`, or in `.edited.<n>.pdf` for a
    non-empty digit sequence `<n>`. -/
def ConformingEditedName (name : String) : Prop :=
  (∃ stem : List Char, name.data.map asciiLower = stem ++ ".edited.pdf".data) ∨
  (∃ stem ds : List Char, ds ≠ [] ∧ (∀ c ∈ ds, isAsciiDigit c = true) ∧
    name.data.map asciiLower = stem ++ ".edited.".data ++ ds ++ ".pdf".data)

/-- `_validate_output_path` (rewrite.py, lines 119-124). -/
def validateOutputPath (name : String) : Except String Unit :=
  if editedNameSearch name then .ok ()
  else .error "Output path must follow the edited PDF naming scheme."

/-- One outline entry as pypdf's `reader.outline` exposes it: a
    destination item, or a nested list holding the children of the
    preceding item. -/
inductive OutlineEntry where
  | item (title : String) (destPage : Option ℕ) (isOpen : Bool)
  | group (entries : List OutlineEntry)
deriving Repr

/-- Count the outline items (navigation entries) of an outline forest. -/
def outlineItemCount : List OutlineEntry → ℕ
  | [] => 0
  | .item _ _ _ :: rest => 1 + outlineItemCount rest
  | .group g :: rest => outlineItemCount g + outlineItemCount rest

/-- The source document as the rewriter reads it: the ordered pages, the
    outline forest, and the number of named destinations.  (Outline read
    errors, which degrade to dropping all outlines, are not modelled.) -/
structure PdfDocument where
  pages : List Page
  outline : List OutlineEntry
  namedDestinationsCount : ℕ

/-- Lookup in the old-index to new-index page map. -/
def mapLookup (m : List (ℕ × ℕ)) (k : ℕ) : Option ℕ :=
  (m.find? fun e => e.1 == k).map (·.2)

/-- `_copy_outline_entries` (rewrite.py, lines 172-229): walk the outline
    forest; an entry whose destination survives in the page map is copied
    with the remapped index, a dropped entry re-parents its children to
    the nearest surviving ancestor (here: splices them into the current
    level).  Returns (copied, dropped, rebuilt outline forest). -/
def copyOutlineEntries (m : List (ℕ × ℕ)) :
    List OutlineEntry → ℕ × ℕ × List OutlineEntry
  | [] => (0, 0, [])
  | .group g :: rest =>
    let fromGroup := copyOutlineEntries m g
    let fromRest := copyOutlineEntries m rest
    (fromGroup.1 + fromRest.1, fromGroup.2.1 + fromRest.2.1,
      fromGroup.2.2 ++ fromRest.2.2)
  | .item title destPage isOpen :: .group g :: rest =>
    let fromChildren := copyOutlineEntries m g
    let fromRest := copyOutlineEntries m rest
    match destPage.bind (mapLookup m) with
    | some newIndex =>
      (1 + fromChildren.1 + fromRest.1, fromChildren.2.1 + fromRest.2.1,
        .item title (some newIndex) isOpen :: .group fromChildren.2.2 :: fromRest.2.2)
    | none =>
      (fromChildren.1 + fromRest.1, 1 + fromChildren.2.1 + fromRest.2.1,
        fromChildren.2.2 ++ fromRest.2.2)
  | .item title destPage isOpen :: rest =>
    let fromRest := copyOutlineEntries m rest
    match destPage.bind (mapLookup m) with
    | some newIndex =>
      (1 + fromRest.1, fromRest.2.1,
        .item title (some newIndex) isOpen :: fromRest.2.2)
    | none => (fromRest.1, 1 + fromRest.2.1, fromRest.2.2)

/-- The fields of the `RewriteResult` dataclass as declared in models.py
    (lines 47-55): `output_path`, `pages_output`, `outlines_copied`,
    `outlines_dropped`, `warnings` — and nothing else. -/
structure RewriteResultModel where
  output_path : String
  pages_output : ℕ
  outlines_copied : ℕ
  outlines_dropped : ℕ
  warnings : List String
deriving DecidableEq, Repr

/-- The keyword arguments `rewrite_pdf` passes when constructing
    `RewriteResult` (rewrite.py, lines 78-94). -/
def rewriteResultPassedKwargs : List String :=
  ["output_path", "pages_output", "outlines_copied", "outlines_dropped",
   "stamp_decisions", "stamping_applied_pages", "stamping_forced_pages",
   "stamping_skipped_pages", "warnings"]

/-- The field names the `RewriteResult` dataclass declares (models.py,
    lines 47-55). -/
def rewriteResultDataclassFields : List String :=
  ["output_path", "pages_output", "outlines_copied", "outlines_dropped",
   "warnings"]

/-- Constructing the dataclass: Python's generated `__init__` raises
    TypeError when any passed keyword argument is not a declared field. -/
def constructRewriteResult (r : RewriteResultModel) :
    Except String RewriteResultModel :=
  if rewriteResultPassedKwargs.all (fun k => rewriteResultDataclassFields.contains k)
  then .ok r
  else .error "TypeError: unexpected keyword argument stamp_decisions"

/-- The writer document being built (pypdf `PdfWriter`): its pages and
    outline forest.  `clone_document_from_reader` copies both faithfully. -/
structure WriterState where
  pages : List Page
  outline : List OutlineEntry

/-- `rewrite_pdf` (rewrite.py, lines 18-94), without the optional
    stamping pass (stamping merges an overlay into retained pages and
    never changes page or outline counts; it is modelled separately by
    `stampPageStep`).  Validation of the bookmark policy and of the
    output name happens before the input document is read.  A full
    retained list clones the document byte-faithfully; otherwise the
    retained pages are copied in order and the outline forest is
    remapped.  The final `RewriteResult(...)` construction goes through
    `constructRewriteResult`. -/
def rewritePdf (doc : PdfDocument) (outputName : String) (pagesToKeep : List ℕ)
    (bookmarkPolicy : String) : Except String (WriterState × RewriteResultModel) :=
  if bookmarkPolicy != "drop" then
    .error "Only the drop bookmark policy is supported."
  else
    match validateOutputPath outputName with
    | .error e => .error e
    | .ok _ =>
      let keepList := pagesToKeep
      if keepList = List.range doc.pages.length then
        let writer : WriterState := { pages := doc.pages, outline := doc.outline }
        match constructRewriteResult
            { output_path := outputName
              pages_output := doc.pages.length
              outlines_copied := 0
              outlines_dropped := 0
              warnings := [] } with
        | .error e => .error e
        | .ok r => .ok (writer, r)
      else
        match keepList.mapM (fun i =>
            match doc.pages.get? i with
            | some p => Except.ok p
            | none => Except.error "IndexError: page index out of range") with
        | .error e => .error e
        | .ok selectedPages =>
          let pageIndexMap := keepList.enum.map fun pair => (pair.2, pair.1)
          let copied := copyOutlineEntries pageIndexMap doc.outline
          let outlineWarnings :=
            if copied.2.1 ≠ 0 then
              ["Dropped outline item(s) that referenced removed or unsupported pages."]
            else []
          let namedWarnings :=
            if doc.namedDestinationsCount ≠ 0 then
              ["Dropped named destination(s) during rewrite."]
            else []
          let writer : WriterState := { pages := selectedPages, outline := copied.2.2 }
          match constructRewriteResult
              { output_path := outputName
                pages_output := keepList.length
                outlines_copied := copied.1
                outlines_dropped := copied.2.1
                warnings := outlineWarnings ++ namedWarnings } with
          | .error e => .error e
          | .ok r => .ok (writer, r)

/-- A concrete 2x1 BGRA bitmap used to evaluate the samplers: the left
    pixel is (R,G,B) = (30,20,10), the right pixel (220,210,200), both
    fully opaque. -/
def bitmapW : Bitmap :=
  { width := 2, height := 1, stride := 8, n_channels := 4,
    buffer := [10, 20, 30, 255, 200, 210, 220, 255] }

/-- A box (in inches) covering the whole of `bitmapW` at 72 dpi. -/
def boxW : ℚ × ℚ × ℚ × ℚ := (0, 0, 1, 1)

/-- A zero-area box: its pixel bounds are degenerate. -/
def boxDegenerateW : ℚ × ℚ × ℚ × ℚ := (0, 0, 0, 0)

/-- A page with no resources, annotations or contents: structurally
    empty with reason `no_contents`. -/
def pageNoContentsW : Page :=
  { resources := none, annots := none, contents := none }

/-- A page whose `/Resources` value is a number: `_resolve_dict` raises
    TypeError on it. -/
def pageBadResourcesW : Page :=
  { resources := some (.num 1), annots := none, contents := none }

/-- A page with a non-empty `/XObject` resource subdictionary but a
    malformed (numeric) `/Annots` value. -/
def pageXobjBadAnnotsW : Page :=
  { resources := some (.dict [("/XObject", .dict [("/Im0", .other)])]),
    annots := some (.num 5), contents := none }

/-- Ten `gs` operations with no operand (each records a
    `gs_without_name` note, filling the 10-entry note list) followed by
    one unmatched `Q`. -/
def underflowOpsW : List (List Operand × String) :=
  List.replicate 10 ([], "gs") ++ [([], "Q")]

/-- A one-page document with one outline item pointing at that page. -/
def docW : PdfDocument :=
  { pages := [pageNoContentsW],
    outline := [.item "Intro" (some 0) true],
    namedDestinationsCount := 0 }

/-- The ink measurement of `bitmapW` sampled whole: both pixels are
    non-background at a 240 white threshold. -/
def statsW : InkStats :=
  { ink_ratio := 1, nonwhite_pixels := 2, total_pixels_sampled := 2,
    sample_box_px := (0, 0, 2, 1) }

/-- A one-channel bitmap: `_measure_ink_ratio` raises ValueError on it. -/
def bitmapBadW : Bitmap :=
  { width := 1, height := 1, stride := 1, n_channels := 1, buffer := [0] }

/-- In a list sorted ascending, the element at index `i` is an upper bound
    of at least `i + 1` entries. -/
theorem sorted_countP_le (ordered : List ℕ)
    (hsorted : List.Sorted (· ≤ ·) ordered) (i : ℕ) (hi : i < ordered.length) :
    i + 1 ≤ ordered.countP fun v => decide (v ≤ ordered[i]) := by
  have hsplit := List.countP_append (fun v => decide (v ≤ ordered[i]))
    (ordered.take (i + 1)) (ordered.drop (i + 1))
  rw [List.take_append_drop] at hsplit
  have htake : ((ordered.take (i + 1)).countP fun v => decide (v ≤ ordered[i]))
      = (ordered.take (i + 1)).length := by
    rw [List.countP_eq_length]
    intro a ha
    rw [List.mem_take_iff_getElem] at ha
    obtain ⟨j, hj, rfl⟩ := ha
    have hj2 : j < ordered.length := lt_of_lt_of_le hj (min_le_right _ _)
    have hji : j ≤ i := by
      have := lt_of_lt_of_le hj (min_le_left _ _)
      omega
    have hrel := @List.Sorted.rel_get_of_le ℕ (· ≤ ·) _ ordered hsorted
      ⟨j, hj2⟩ ⟨i, hi⟩ hji
    simpa using hrel
  have hlen : (ordered.take (i + 1)).length = i + 1 := by
    rw [List.length_take]
    omega
  omega

/-- In a list sorted ascending, the element at index `i` is a lower bound
    of at least `length - i` entries. -/
theorem sorted_countP_ge (ordered : List ℕ)
    (hsorted : List.Sorted (· ≤ ·) ordered) (i : ℕ) (hi : i < ordered.length) :
    ordered.length - i ≤ ordered.countP fun v => decide (ordered[i] ≤ v) := by
  have hsplit := List.countP_append (fun v => decide (ordered[i] ≤ v))
    (ordered.take i) (ordered.drop i)
  rw [List.take_append_drop] at hsplit
  have hdrop : ((ordered.drop i).countP fun v => decide (ordered[i] ≤ v))
      = (ordered.drop i).length := by
    rw [List.countP_eq_length]
    intro a ha
    rw [List.mem_iff_getElem] at ha
    obtain ⟨j, hj, rfl⟩ := ha
    rw [List.getElem_drop]
    have hij : i + j < ordered.length := by
      rw [List.length_drop] at hj
      omega
    have hrel := @List.Sorted.rel_get_of_le ℕ (· ≤ ·) _ ordered hsorted
      ⟨i, hi⟩ ⟨i + j, hij⟩ (Nat.le_add_right i j)
    simpa using hrel
  have hlen : (ordered.drop i).length = ordered.length - i := List.length_drop i ordered
  omega

/-- The value chosen by `_median_channel` is a median of its input. -/
theorem medianChannel_isMedianOf (l : List ℕ) (hl : l ≠ []) :
    IsMedianOf (medianChannel l) l := by
  have hperm : (l.insertionSort (· ≤ ·)).Perm l := List.perm_insertionSort _ l
  have hsorted : List.Sorted (· ≤ ·) (l.insertionSort (· ≤ ·)) :=
    List.sorted_insertionSort _ l
  have hlen : (l.insertionSort (· ≤ ·)).length = l.length := hperm.length_eq
  have hpos : 0 < (l.insertionSort (· ≤ ·)).length := by
    rw [hlen]
    exact List.length_pos.mpr hl
  have hmid : (l.insertionSort (· ≤ ·)).length / 2 < (l.insertionSort (· ≤ ·)).length :=
    Nat.div_lt_self hpos one_lt_two
  have hmval : medianChannel l =
      (l.insertionSort (· ≤ ·))[(l.insertionSort (· ≤ ·)).length / 2] := by
    simp only [medianChannel]
    exact List.getD_eq_getElem _ _ hmid
  have hmod := Nat.div_add_mod (l.insertionSort (· ≤ ·)).length 2
  have hmodlt : (l.insertionSort (· ≤ ·)).length % 2 < 2 := Nat.mod_lt _ (by omega)
  refine ⟨?_, ?_, ?_⟩
  · rw [hmval]
    exact hperm.mem_iff.mp (List.getElem_mem hmid)
  · rw [hmval, ← hperm.countP_eq, ← hlen]
    have := sorted_countP_le (l.insertionSort (· ≤ ·)) hsorted
      ((l.insertionSort (· ≤ ·)).length / 2) hmid
    omega
  · rw [hmval, ← hperm.countP_eq, ← hlen]
    have := sorted_countP_ge (l.insertionSort (· ≤ ·)) hsorted
      ((l.insertionSort (· ≤ ·)).length / 2) hmid
    omega

/-- The number of pixels visited by the sampling loops. -/
theorem length_regionPixels (bm : Bitmap) (x0 x1 y0 y1 : ℕ) :
    (regionPixels bm x0 x1 y0 y1).length = (y1 - y0) * (x1 - x0) := by
  simp [regionPixels, List.length_flatMap, Function.comp_def, List.map_const]

/-- Pixel bounds of the box `boxW` over `bitmapW` at 72 dpi. -/
theorem boxInToPixelBounds_boxW :
    boxInToPixelBounds boxW bitmapW.width bitmapW.height 72 = (0, 0, 2, 1) := by
  simp only [boxInToPixelBounds, boxW, bitmapW, pythonRound]
  norm_num
  all_goals decide

/-- Pixel bounds of the degenerate box over `bitmapW`. -/
theorem boxInToPixelBounds_degenerateW :
    boxInToPixelBounds boxDegenerateW bitmapW.width bitmapW.height 72 = (0, 1, 0, 1) := by
  simp only [boxInToPixelBounds, boxDegenerateW, bitmapW, pythonRound]
  norm_num

/-- Full evaluation of `_sample_box_region` on `bitmapW` over `boxW`. -/
theorem sampleBoxRegion_bitmapW :
    sampleBoxRegion bitmapW boxW 72 240 =
      { cover_color_rgb := (220, 210, 200), ink_ratio := 1,
        invalid_sample_area := false, nonwhite_pixel_count := 2,
        sample_box_px := (0, 0, 2, 1), sampled_pixel_count := 2 } := by
  have h1 : ((regionPixels bitmapW 0 2 0 1).filter fun p => ! pixelIsWhite p 240).length
      = 2 := by decide
  have h2 : medianChannel ((regionPixels bitmapW 0 2 0 1).map Pixel.red) = 220 := by
    decide
  have h3 : medianChannel ((regionPixels bitmapW 0 2 0 1).map Pixel.green) = 210 := by
    decide
  have h4 : medianChannel ((regionPixels bitmapW 0 2 0 1).map Pixel.blue) = 200 := by
    decide
  simp only [sampleBoxRegion, boxInToPixelBounds_boxW]
  norm_num [h1, h2, h3, h4]

/-- Full evaluation of `_sample_box_region` on the degenerate box. -/
theorem sampleBoxRegion_degenerateW :
    sampleBoxRegion bitmapW boxDegenerateW 72 240 =
      { cover_color_rgb := (255, 255, 255), ink_ratio := 0,
        invalid_sample_area := true, nonwhite_pixel_count := 0,
        sample_box_px := (0, 1, 0, 1), sampled_pixel_count := 0 } := by
  simp only [sampleBoxRegion, boxInToPixelBounds_degenerateW]
  norm_num

/-- C2: for every non-degenerate sampled box, the candidate cover color is,
    per channel (R, G, B independently), the median of that channel's
    values across all sampled pixels of the box — and it is exactly the
    value `_median_channel` picks from each sampled channel list. -/
theorem claim_C2 (bm : Bitmap) (boxIn : ℚ × ℚ × ℚ × ℚ) (dpi whiteThreshold : ℕ)
    (x0 y0 x1 y1 : ℕ)
    (hvalid : (sampleBoxRegion bm boxIn dpi whiteThreshold).invalid_sample_area = false)
    (hbox : (sampleBoxRegion bm boxIn dpi whiteThreshold).sample_box_px = (x0, y0, x1, y1)) :
    (sampleBoxRegion bm boxIn dpi whiteThreshold).cover_color_rgb =
      (medianChannel ((regionPixels bm x0 x1 y0 y1).map Pixel.red),
        medianChannel ((regionPixels bm x0 x1 y0 y1).map Pixel.green),
        medianChannel ((regionPixels bm x0 x1 y0 y1).map Pixel.blue)) ∧
    IsMedianOf (sampleBoxRegion bm boxIn dpi whiteThreshold).cover_color_rgb.1
      ((regionPixels bm x0 x1 y0 y1).map Pixel.red) ∧
    IsMedianOf (sampleBoxRegion bm boxIn dpi whiteThreshold).cover_color_rgb.2.1
      ((regionPixels bm x0 x1 y0 y1).map Pixel.green) ∧
    IsMedianOf (sampleBoxRegion bm boxIn dpi whiteThreshold).cover_color_rgb.2.2
      ((regionPixels bm x0 x1 y0 y1).map Pixel.blue) := by
  by_cases hc : ((boxInToPixelBounds boxIn bm.width bm.height dpi).2.2.1 -
      (boxInToPixelBounds boxIn bm.width bm.height dpi).1) *
      ((boxInToPixelBounds boxIn bm.width bm.height dpi).2.2.2 -
      (boxInToPixelBounds boxIn bm.width bm.height dpi).2.1) = 0
  · simp [sampleBoxRegion, hc] at hvalid
  · simp only [sampleBoxRegion, hc, if_false] at hvalid hbox ⊢
    simp only [Prod.mk.injEq] at hbox
    obtain ⟨hx0, hy0, hx1, hy1⟩ := hbox
    subst hx0
    subst hy0
    subst hx1
    subst hy1
    have hne : regionPixels bm
        (boxInToPixelBounds boxIn bm.width bm.height dpi).1
        (boxInToPixelBounds boxIn bm.width bm.height dpi).2.2.1
        (boxInToPixelBounds boxIn bm.width bm.height dpi).2.1
        (boxInToPixelBounds boxIn bm.width bm.height dpi).2.2.2 ≠ [] := by
      intro hnil
      have hlen := length_regionPixels bm
        (boxInToPixelBounds boxIn bm.width bm.height dpi).1
        (boxInToPixelBounds boxIn bm.width bm.height dpi).2.2.1
        (boxInToPixelBounds boxIn bm.width bm.height dpi).2.1
        (boxInToPixelBounds boxIn bm.width bm.height dpi).2.2.2
      rw [hnil] at hlen
      simp only [List.length_nil] at hlen
      exact hc (by rw [mul_comm]; exact hlen.symm)
    refine ⟨rfl, ?_, ?_, ?_⟩
    · exact medianChannel_isMedianOf _ (by simpa using hne)
    · exact medianChannel_isMedianOf _ (by simpa using hne)
    · exact medianChannel_isMedianOf _ (by simpa using hne)

/-- Witness for C2 at a concrete bitmap and box. -/
theorem claim_C2_witness :
    (sampleBoxRegion bitmapW boxW 72 240).cover_color_rgb =
      (medianChannel ((regionPixels bitmapW 0 2 0 1).map Pixel.red),
        medianChannel ((regionPixels bitmapW 0 2 0 1).map Pixel.green),
        medianChannel ((regionPixels bitmapW 0 2 0 1).map Pixel.blue)) ∧
    IsMedianOf (sampleBoxRegion bitmapW boxW 72 240).cover_color_rgb.1
      ((regionPixels bitmapW 0 2 0 1).map Pixel.red) ∧
    IsMedianOf (sampleBoxRegion bitmapW boxW 72 240).cover_color_rgb.2.1
      ((regionPixels bitmapW 0 2 0 1).map Pixel.green) ∧
    IsMedianOf (sampleBoxRegion bitmapW boxW 72 240).cover_color_rgb.2.2
      ((regionPixels bitmapW 0 2 0 1).map Pixel.blue) :=
  claim_C2 bitmapW boxW 72 240 0 0 2 1 (by rw [sampleBoxRegion_bitmapW])
    (by rw [sampleBoxRegion_bitmapW])

/-- C1 counterexample: on a page whose sample area is degenerate, with the
    force flag set, the stamper does NOT skip — it covers the box and
    records `stamped_forced`, contradicting the claim that a degenerate
    sample area always yields `skipped_guardrail`. -/
theorem claim_C1_counterexample :
    (sampleBoxRegion bitmapW boxDegenerateW 72 240).invalid_sample_area = true ∧
    stampPageStep true (1 / 2) (sampleBoxRegion bitmapW boxDegenerateW 72 240) =
      (StampAction.stamped_forced, true) := by
  rw [sampleBoxRegion_degenerateW]
  exact ⟨rfl, rfl⟩

/-- C1 as amended: a page is skipped with `skipped_guardrail` (and left
    unmodified) exactly when the force flag is NOT set and (the sample
    area is degenerate or `ink_ratio > ink_threshold`); in every other
    case the box is covered, recording `stamped_forced` when forced and
    `stamped` otherwise. -/
theorem claim_C1_amended (force : Bool) (inkThreshold : ℚ) (stats : RegionStats) :
    ((stampPageStep force inkThreshold stats).1 = StampAction.skipped_guardrail ↔
      force = false ∧
        (stats.invalid_sample_area = true ∨ inkThreshold < stats.ink_ratio)) ∧
    ((stampPageStep force inkThreshold stats).2 = false ↔
      (stampPageStep force inkThreshold stats).1 = StampAction.skipped_guardrail) ∧
    ((stampPageStep force inkThreshold stats).1 ≠ StampAction.skipped_guardrail →
      (stampPageStep force inkThreshold stats).1 =
        if force then StampAction.stamped_forced else StampAction.stamped) := by
  unfold stampPageStep
  cases force <;> cases hinv : stats.invalid_sample_area <;>
    by_cases hq : inkThreshold < stats.ink_ratio <;> simp [hinv, hq]

/-- Witness for C1 (amended): a non-forced page whose box is fully inked
    is skipped by the guardrail. -/
theorem claim_C1_witness :
    (stampPageStep false 0 (sampleBoxRegion bitmapW boxW 72 240)).1 =
      StampAction.skipped_guardrail :=
  (claim_C1_amended false 0 (sampleBoxRegion bitmapW boxW 72 240)).1.mpr
    ⟨rfl, Or.inr (by rw [sampleBoxRegion_bitmapW]; norm_num)⟩

/-- C3: the decision-combiner law.  In mode `both` the combined
    `is_empty` is the OR of the two detectors, with reason `both_empty`
    when both judge empty, `structural_empty` when only the structural
    one does, `render_empty` when only the render one does, and
    `non_empty` otherwise; in mode `structural` (resp. `render`) the
    combined `is_empty` equals the structural (resp. render) verdict
    alone. -/
theorem claim_C3 (pageIndex : ℕ) (s r : PageDecision) :
    ((combinedPageDecision pageIndex s (some r) "both").is_empty
      = (s.is_empty || r.is_empty)) ∧
    ((combinedPageDecision pageIndex s (some r) "both").reason =
      if s.is_empty && r.is_empty then "both_empty"
      else if s.is_empty then "structural_empty"
      else if r.is_empty then "render_empty"
      else "non_empty") ∧
    (∀ renderOpt : Option PageDecision,
      (combinedPageDecision pageIndex s renderOpt "structural").is_empty
        = s.is_empty) ∧
    (∀ s2 : PageDecision,
      (combinedPageDecision pageIndex s2 (some r) "render").is_empty
        = r.is_empty) := by
  refine ⟨?_, ?_, ?_, ?_⟩
  · cases hs : s.is_empty <;> cases hr : r.is_empty <;>
      simp [combinedPageDecision, hs, hr]
  · cases hs : s.is_empty <;> cases hr : r.is_empty <;>
      simp [combinedPageDecision, hs, hr]
  · intro renderOpt
    cases renderOpt <;> simp [combinedPageDecision]
  · intro s2
    simp [combinedPageDecision]

/-- C7: the structural detector fails open.  Whenever the detection body
    raises (any resolution or content-stream failure), the per-page
    result is `(is_empty := false, reason := "unknown_structure")`; the
    page loop always yields one decision per page of the document, and
    each page's decision depends only on that page, so detection of the
    remaining pages continues unaffected. -/
theorem claim_C7 :
    (∀ (page : Page) (treatAnnotationsAsEmpty : Bool) (e : String),
      structuralCore page treatAnnotationsAsEmpty = .error e →
      isPageEmptyStructural page treatAnnotationsAsEmpty =
        (false, "unknown_structure")) ∧
    (∀ (pages : List Page) (treatAnnotationsAsEmpty : Bool),
      (detectPageDecisions pages treatAnnotationsAsEmpty).length = pages.length) ∧
    (∀ (pages : List Page) (treatAnnotationsAsEmpty : Bool) (i : ℕ) (page : Page),
      pages.get? i = some page →
      (detectPageDecisions pages treatAnnotationsAsEmpty).get? i =
        some { page_index := i
               is_empty := (isPageEmptyStructural page treatAnnotationsAsEmpty).1
               reason := (isPageEmptyStructural page treatAnnotationsAsEmpty).2 }) := by
  refine ⟨?_, ?_, ?_⟩
  · intro page t e h
    unfold isPageEmptyStructural
    rw [h]
  · intro pages t
    simp [detectPageDecisions]
  · intro pages t i page h
    rw [List.get?_eq_getElem?] at h ⊢
    simp only [detectPageDecisions, List.getElem?_map, List.getElem?_enum, h,
      Option.map_some']

/-- Witness for C7: a page whose `/Resources` value is a number makes the
    body raise TypeError, the decision degrades to `unknown_structure`,
    and a following page still gets its decision. -/
theorem claim_C7_witness :
    isPageEmptyStructural pageBadResourcesW true = (false, "unknown_structure") ∧
    (detectPageDecisions [pageBadResourcesW, pageNoContentsW] true).length = 2 ∧
    (detectPageDecisions [pageBadResourcesW, pageNoContentsW] true).get? 1 =
      some { page_index := 1
             is_empty := (isPageEmptyStructural pageNoContentsW true).1
             reason := (isPageEmptyStructural pageNoContentsW true).2 } :=
  ⟨claim_C7.1 pageBadResourcesW true
      "TypeError: Expected a PDF dictionary object." rfl,
    claim_C7.2.1 [pageBadResourcesW, pageNoContentsW] true,
    claim_C7.2.2 [pageBadResourcesW, pageNoContentsW] true 1 pageNoContentsW rfl⟩

/-- C9 counterexample: after ten `gs` operations without a name (each
    recording a `gs_without_name` note, saturating the 10-entry note
    list), an unmatched `Q` on the empty stack does NOT record the
    `graphics_state_underflow` note — the scan still completes without a
    visible mark, but the note is silently dropped, contradicting the
    claim that a note is always recorded. -/
theorem claim_C9_counterexample :
    (evalOps [] underflowOpsW defaultVisibilityState [] initialDetails).2.notes =
      List.replicate 10 "gs_without_name" ∧
    "graphics_state_underflow" ∉
      (evalOps [] underflowOpsW defaultVisibilityState [] initialDetails).2.notes ∧
    (evalOps [] underflowOpsW defaultVisibilityState [] initialDetails).1 = none := by
  refine ⟨by decide, ?_, by decide⟩
  intro hmem
  rw [show (evalOps [] underflowOpsW defaultVisibilityState [] initialDetails).2.notes
    = List.replicate 10 "gs_without_name" from by decide] at hmem
  rw [List.mem_replicate] at hmem
  exact absurd hmem.2 (by decide)

/-- C9 as amended: interpreting `Q` with an empty graphics-state stack
    never raises — it records the operator, leaves the current state and
    the (empty) stack unchanged, appends the `graphics_state_underflow`
    note whenever the note list is below its 10-entry cap, and continues
    interpreting the remaining operations. -/
theorem claim_C9_amended (extg : List (String × PdfValue))
    (operands : List Operand) (rest : List (List Operand × String))
    (state : VisibilityState) (d : Details) :
    evalOps extg ((operands, "Q") :: rest) state [] d =
      evalOps extg rest state []
        { d with
          state_ops_found := appendLimited d.state_ops_found "Q"
          notes := appendLimited d.notes "graphics_state_underflow" } ∧
    (d.notes.length < 10 →
      "graphics_state_underflow" ∈
        appendLimited d.notes "graphics_state_underflow") := by
  constructor
  · rfl
  · intro h
    simp [appendLimited, Nat.not_le.mpr h]

/-- Witness for C9 (amended): on a fresh details record the note is
    recorded and interpretation continues. -/
theorem claim_C9_witness :
    evalOps [] [([], "Q")] defaultVisibilityState [] initialDetails =
      evalOps [] [] defaultVisibilityState []
        { initialDetails with
          state_ops_found := appendLimited initialDetails.state_ops_found "Q"
          notes := appendLimited initialDetails.notes "graphics_state_underflow" } ∧
    "graphics_state_underflow" ∈
      appendLimited initialDetails.notes "graphics_state_underflow" :=
  ⟨(claim_C9_amended [] [] [] defaultVisibilityState initialDetails).1,
    (claim_C9_amended [] [] [] defaultVisibilityState initialDetails).2 (by decide)⟩

/-- A page judged structurally empty passed all its resource and
    annotation resolutions, and its `/XObject` subdictionary was found
    empty or absent. -/
theorem structural_empty_inversion (page : Page) (t : Bool) (r : String)
    (h : isPageEmptyStructural page t = (true, r)) :
    ∃ res bf nE nA, resolveDict page.resources = .ok res ∧
      dictHasEntries (lookupKey res "/XObject") = .ok false ∧
      dictHasEntries (lookupKey res "/Font") = .ok bf ∧
      dictCount (lookupKey res "/ExtGState") = .ok nE ∧
      countEntries page.annots = .ok nA := by
  unfold isPageEmptyStructural at h
  cases hcore : structuralCore page t with
  | error e =>
    rw [hcore] at h
    simp at h
  | ok res0 =>
    rw [hcore] at h
    subst h
    unfold structuralCore at hcore
    split at hcore
    · exact absurd hcore (by simp)
    next res heq1 =>
      split at hcore
      · exact absurd hcore (by simp)
      next xop heq2 =>
        split at hcore
        · exact absurd hcore (by simp)
        next bf heq3 =>
          split at hcore
          · exact absurd hcore (by simp)
          next nE heq4 =>
            split at hcore
            · exact absurd hcore (by simp)
            next nA heq5 =>
              refine ⟨res, bf, nE, nA, heq1, ?_, heq3, heq4, heq5⟩
              cases hx : xop with
              | false => rw [hx] at heq2; exact heq2
              | true =>
                rw [hx] at hcore
                simp at hcore

/-- C5 counterexample: a page with a non-empty `/XObject` subdictionary
    but a malformed (numeric) `/Annots` value is decided
    `unknown_structure`, not `has_xobject` — the decision is not
    independent of the page's annotations. -/
theorem claim_C5_counterexample :
    dictHasEntries (lookupKey
      [("/XObject", PdfValue.dict [("/Im0", PdfValue.other)])] "/XObject")
      = .ok true ∧
    isPageEmptyStructural pageXobjBadAnnotsW true = (false, "unknown_structure") ∧
    isPageEmptyStructural pageXobjBadAnnotsW true ≠ (false, "has_xobject") := by
  refine ⟨rfl, rfl, ?_⟩
  intro hcontra
  have : "unknown_structure" = "has_xobject" := congrArg Prod.snd hcontra
  exact absurd this (by decide)

/-- Filtering out the `/XObject` entries does not change lookups of any
    other key. -/
theorem lookupKey_filter_other (entries : List (String × PdfValue)) (k : String)
    (hk : k ≠ "/XObject") :
    lookupKey (entries.filter fun e => !(e.1 == "/XObject")) k
      = lookupKey entries k := by
  unfold lookupKey
  induction entries with
  | nil => rfl
  | cons head tail ih =>
    by_cases hh : head.1 = "/XObject"
    · rw [List.filter_cons_of_neg (by simp [hh])]
      rw [List.find?_cons_of_neg _ (by simp [hh]; exact fun hc => hk hc.symm)]
      exact ih
    · rw [List.filter_cons_of_pos (by simp [hh])]
      by_cases hpk : head.1 = k
      · rw [List.find?_cons_of_pos _ (by simp [hpk]),
          List.find?_cons_of_pos _ (by simp [hpk])]
      · rw [List.find?_cons_of_neg _ (by simp [hpk]),
          List.find?_cons_of_neg _ (by simp [hpk])]
        exact ih

/-- In the rebuilt resource dictionary of `addXObject`, the `/XObject`
    entry is the prepended one. -/
theorem lookupKey_addXObject_self (xobjval : PdfValue)
    (entries : List (String × PdfValue)) :
    lookupKey (("/XObject", xobjval) ::
        entries.filter fun e => !(e.1 == "/XObject")) "/XObject"
      = some xobjval := by
  unfold lookupKey
  rw [List.find?_cons_of_pos _ (by simp)]
  rfl

/-- In the rebuilt resource dictionary of `addXObject`, lookups of other
    keys see the original entries. -/
theorem lookupKey_addXObject_other (xobjval : PdfValue)
    (entries : List (String × PdfValue)) (k : String) (hk : k ≠ "/XObject") :
    lookupKey (("/XObject", xobjval) ::
        entries.filter fun e => !(e.1 == "/XObject")) k
      = lookupKey entries k := by
  rw [← lookupKey_filter_other entries k hk]
  unfold lookupKey
  rw [List.find?_cons_of_neg _ (by simp; exact fun hc => hk hc.symm)]

/-- C5 as amended: when the page's `/Font`, `/ExtGState` and `/Annots`
    entries resolve without error, a non-empty `/XObject` subdictionary
    forces the decision `(false, "has_xobject")` regardless of the
    annotation count and of the content stream; consequently adding an
    XObject entry to a page previously judged empty (such a page always
    resolves cleanly) flips its decision to `(false, "has_xobject")`. -/
theorem claim_C5_amended :
    (∀ (page : Page) (t : Bool) (res : List (String × PdfValue)) (bf : Bool)
        (nE nA : ℕ),
      resolveDict page.resources = .ok res →
      dictHasEntries (lookupKey res "/XObject") = .ok true →
      dictHasEntries (lookupKey res "/Font") = .ok bf →
      dictCount (lookupKey res "/ExtGState") = .ok nE →
      countEntries page.annots = .ok nA →
      isPageEmptyStructural page t = (false, "has_xobject")) ∧
    (∀ (page : Page) (t : Bool) (r key : String) (v : PdfValue),
      isPageEmptyStructural page t = (true, r) →
      isPageEmptyStructural (addXObject page key v) t = (false, "has_xobject")) := by
  have hbase : ∀ (page : Page) (t : Bool) (res : List (String × PdfValue))
      (bf : Bool) (nE nA : ℕ),
      resolveDict page.resources = .ok res →
      dictHasEntries (lookupKey res "/XObject") = .ok true →
      dictHasEntries (lookupKey res "/Font") = .ok bf →
      dictCount (lookupKey res "/ExtGState") = .ok nE →
      countEntries page.annots = .ok nA →
      isPageEmptyStructural page t = (false, "has_xobject") := by
    intro page t res bf nE nA h1 h2 h3 h4 h5
    unfold isPageEmptyStructural structuralCore
    simp [h1, h2, h3, h4, h5]
  refine ⟨hbase, ?_⟩
  intro page t r key v h
  obtain ⟨res, bf, nE, nA, h1, h2, h3, h4, h5⟩ :=
    structural_empty_inversion page t r h
  match hres : page.resources with
  | none =>
    rw [hres] at h1
    refine hbase _ t [("/XObject", .dict [(key, v)])] false 0 nA ?_ rfl rfl rfl ?_
    · simp [addXObject, hres, resolveDict]
    · simpa [addXObject, hres] using h5
  | some (.dict entries) =>
    rw [hres] at h1
    have hresEq : entries = res := by
      simpa [resolveDict] using h1
    subst hresEq
    have hannots : countEntries (addXObject page key v).annots = .ok nA := by
      simpa [addXObject, hres] using h5
    cases hlk : lookupKey entries "/XObject" with
    | none =>
      refine hbase _ t (("/XObject", PdfValue.dict [(key, v)]) ::
          entries.filter fun e => !(e.1 == "/XObject")) bf nE nA ?_ ?_ ?_ ?_ hannots
      · simp [addXObject, hres, hlk, resolveDict]
      · rw [lookupKey_addXObject_self]
        rfl
      · rw [lookupKey_addXObject_other _ _ "/Font" (by decide)]
        exact h3
      · rw [lookupKey_addXObject_other _ _ "/ExtGState" (by decide)]
        exact h4
    | some val =>
      cases val with
      | dict xs =>
        refine hbase _ t (("/XObject", PdfValue.dict ((key, v) :: xs)) ::
            entries.filter fun e => !(e.1 == "/XObject")) bf nE nA ?_ ?_ ?_ ?_ hannots
        · simp [addXObject, hres, hlk, resolveDict]
        · rw [lookupKey_addXObject_self]
          rfl
        · rw [lookupKey_addXObject_other _ _ "/Font" (by decide)]
          exact h3
        · rw [lookupKey_addXObject_other _ _ "/ExtGState" (by decide)]
          exact h4
      | arr items =>
        rw [hlk] at h2
        exact absurd h2 (by simp [dictHasEntries])
      | num q =>
        rw [hlk] at h2
        exact absurd h2 (by simp [dictHasEntries])
      | name s =>
        rw [hlk] at h2
        exact absurd h2 (by simp [dictHasEntries])
      | other =>
        rw [hlk] at h2
        exact absurd h2 (by simp [dictHasEntries])
  | some (.arr items) =>
    rw [hres] at h1
    exact absurd h1 (by simp [resolveDict])
  | some (.num q) =>
    rw [hres] at h1
    exact absurd h1 (by simp [resolveDict])
  | some (.name s) =>
    rw [hres] at h1
    exact absurd h1 (by simp [resolveDict])
  | some .other =>
    rw [hres] at h1
    exact absurd h1 (by simp [resolveDict])

/-- Witness for C5 (amended): a page judged empty (`no_contents`) flips
    to `has_xobject` when an XObject entry is added. -/
theorem claim_C5_witness :
    isPageEmptyStructural pageNoContentsW true = (true, "no_contents") ∧
    isPageEmptyStructural (addXObject pageNoContentsW "/Im0" PdfValue.other) true
      = (false, "has_xobject") :=
  ⟨rfl, claim_C5_amended.2 pageNoContentsW true "no_contents" "/Im0"
    PdfValue.other rfl⟩

/-- C4: render ink sampler classification.  (i) A sampled pixel is
    background exactly when its alpha is 0 or all of R, G, B are at least
    the white threshold.  (ii) For a successful whole-page measurement,
    `ink_ratio = nonbackground_pixel_count / sampled_pixel_count`, the
    non-background count is the count over the sampled pixels, the
    sampled count is `width * height`, and a degenerate (zero-area)
    sample box yields `ink_ratio = 0` and `total_pixels_sampled = 0`.
    (iii) A successfully rendered and measured page is judged empty
    exactly when `ink_ratio < ink_threshold`, with reason
    `ink_below_threshold`, else `ink_above_threshold`. -/
theorem claim_C4 :
    (∀ (p : Pixel) (whiteThreshold : ℕ),
      pixelIsWhite p whiteThreshold = true ↔
        (p.alpha = some 0 ∨
          (whiteThreshold ≤ p.red ∧ whiteThreshold ≤ p.green ∧
            whiteThreshold ≤ p.blue))) ∧
    (∀ (bm : Bitmap) (whiteThreshold : ℕ) (centerMargin : ℚ) (stats : InkStats),
      measureInkRatio bm "all" "white" whiteThreshold centerMargin = .ok stats →
      stats.ink_ratio =
        (stats.nonwhite_pixels : ℚ) / (stats.total_pixels_sampled : ℚ) ∧
      stats.nonwhite_pixels =
        ((regionPixels bm 0 bm.width 0 bm.height).filter
          fun p => ! pixelIsWhite p whiteThreshold).length ∧
      stats.total_pixels_sampled = bm.width * bm.height ∧
      (bm.width * bm.height = 0 →
        stats.ink_ratio = 0 ∧ stats.total_pixels_sampled = 0)) ∧
    (∀ (pageIndex : ℕ) (bm : Bitmap) (sample background : String)
        (whiteThreshold : ℕ) (centerMargin inkThreshold : ℚ) (stats : InkStats),
      measureInkRatio bm sample background whiteThreshold centerMargin = .ok stats →
      renderPageDecision pageIndex (.ok bm) sample background whiteThreshold
          centerMargin inkThreshold =
        { page_index := pageIndex
          is_empty := decide (stats.ink_ratio < inkThreshold)
          reason := if stats.ink_ratio < inkThreshold then "ink_below_threshold"
            else "ink_above_threshold" }) := by
  refine ⟨?_, ?_, ?_⟩
  · intro p whiteThreshold
    unfold pixelIsWhite
    by_cases ha : p.alpha = some 0 <;> simp [ha, and_assoc]
  · intro bm whiteThreshold centerMargin stats h
    unfold measureInkRatio at h
    rw [if_neg (by simp)] at h
    split at h
    · simp at h
    · split at h
      next e heq => simp [sampleBounds] at heq
      next bounds heq =>
        have hbounds : bounds = (0, bm.width, 0, bm.height) := by
          have := heq.symm
          simpa [sampleBounds] using this
        subst hbounds
        simp only [Nat.sub_zero] at h
        split at h
        next hcnt =>
          rw [Except.ok.injEq] at h
          subst h
          have hregion : regionPixels bm 0 bm.width 0 bm.height = [] := by
            rw [← List.length_eq_zero, length_regionPixels, Nat.sub_zero,
              Nat.sub_zero, Nat.mul_comm]
            exact hcnt
          refine ⟨by simp, by simp [hregion], hcnt.symm, fun _ => ⟨rfl, rfl⟩⟩
        next hcnt =>
          rw [Except.ok.injEq] at h
          subst h
          exact ⟨rfl, rfl, rfl, fun hdeg => absurd hdeg hcnt⟩
  · intro pageIndex bm sample background whiteThreshold centerMargin inkThreshold
      stats h
    simp [renderPageDecision, h]

/-- Evaluation of `_measure_ink_ratio` on `bitmapW` sampled whole. -/
theorem measureInkRatio_bitmapW :
    measureInkRatio bitmapW "all" "white" 240 (1 / 20) = .ok statsW := by
  have hw : bitmapW.width = 2 := rfl
  have hh : bitmapW.height = 1 := rfl
  have hch : bitmapW.n_channels = 4 := rfl
  have h1 : ((regionPixels bitmapW 0 2 0 1).filter
      fun p => ! pixelIsWhite p 240).length = 2 := by decide
  norm_num [measureInkRatio, sampleBounds, hw, hh, hch, h1, statsW]

/-- Witness for C4 on a concrete pixel, measurement and page. -/
theorem claim_C4_witness :
    pixelIsWhite { red := 250, green := 250, blue := 250, alpha := some 255 } 240
      = true ∧
    statsW.ink_ratio = (statsW.nonwhite_pixels : ℚ) / (statsW.total_pixels_sampled : ℚ) ∧
    renderPageDecision 0 (.ok bitmapW) "all" "white" 240 (1 / 20) (1 / 2) =
      { page_index := 0
        is_empty := decide (statsW.ink_ratio < 1 / 2)
        reason := if statsW.ink_ratio < 1 / 2 then "ink_below_threshold"
          else "ink_above_threshold" } :=
  ⟨(claim_C4.1 { red := 250, green := 250, blue := 250, alpha := some 255 } 240).mpr
      (Or.inr ⟨by norm_num, by norm_num, by norm_num⟩),
    (claim_C4.2.1 bitmapW 240 (1 / 20) statsW measureInkRatio_bitmapW).1,
    claim_C4.2.2 0 bitmapW "all" "white" 240 (1 / 20) (1 / 2) statsW
      measureInkRatio_bitmapW⟩

/-- C8: render fail-open with per-page isolation.  The decision list has
    one entry per page; a page whose rendering raised gets
    `(false, "render_failed")`, and a page whose sampling raised gets
    `(false, "render_failed")` as well — other pages are unaffected. -/
theorem claim_C8 :
    (∀ (pages : List (Except String Bitmap)) (sample background : String)
        (whiteThreshold : ℕ) (centerMargin inkThreshold : ℚ),
      (detectEmptyPagesRender pages sample background whiteThreshold
        centerMargin inkThreshold).length = pages.length) ∧
    (∀ (pages : List (Except String Bitmap)) (sample background : String)
        (whiteThreshold : ℕ) (centerMargin inkThreshold : ℚ) (i : ℕ) (e : String),
      pages.get? i = some (.error e) →
      (detectEmptyPagesRender pages sample background whiteThreshold
        centerMargin inkThreshold).get? i =
        some { page_index := i, is_empty := false, reason := "render_failed" }) ∧
    (∀ (pages : List (Except String Bitmap)) (sample background : String)
        (whiteThreshold : ℕ) (centerMargin inkThreshold : ℚ) (i : ℕ)
        (bm : Bitmap) (e : String),
      pages.get? i = some (.ok bm) →
      measureInkRatio bm sample background whiteThreshold centerMargin = .error e →
      (detectEmptyPagesRender pages sample background whiteThreshold
        centerMargin inkThreshold).get? i =
        some { page_index := i, is_empty := false, reason := "render_failed" }) := by
  refine ⟨?_, ?_, ?_⟩
  · intro pages sample background whiteThreshold centerMargin inkThreshold
    simp [detectEmptyPagesRender]
  · intro pages sample background whiteThreshold centerMargin inkThreshold i e h
    rw [List.get?_eq_getElem?] at h ⊢
    simp only [detectEmptyPagesRender, List.getElem?_map, List.getElem?_enum, h,
      Option.map_some']
    rfl
  · intro pages sample background whiteThreshold centerMargin inkThreshold i bm e
      h hmeasure
    rw [List.get?_eq_getElem?] at h ⊢
    simp only [detectEmptyPagesRender, List.getElem?_map, List.getElem?_enum, h,
      Option.map_some']
    simp [renderPageDecision, hmeasure]

/-- Witness for C8: a render failure on page 0 and a sampling failure
    (one-channel bitmap) on page 1 both degrade to `render_failed`, and
    the decision list still covers both pages. -/
theorem claim_C8_witness :
    (detectEmptyPagesRender [.error "RenderError", .ok bitmapBadW]
      "all" "white" 240 (1 / 20) (1 / 2)).length = 2 ∧
    (detectEmptyPagesRender [.error "RenderError", .ok bitmapBadW]
      "all" "white" 240 (1 / 20) (1 / 2)).get? 0 =
      some { page_index := 0, is_empty := false, reason := "render_failed" } ∧
    (detectEmptyPagesRender [.error "RenderError", .ok bitmapBadW]
      "all" "white" 240 (1 / 20) (1 / 2)).get? 1 =
      some { page_index := 1, is_empty := false, reason := "render_failed" } :=
  ⟨claim_C8.1 [.error "RenderError", .ok bitmapBadW] "all" "white" 240
      (1 / 20) (1 / 2),
    claim_C8.2.1 [.error "RenderError", .ok bitmapBadW] "all" "white" 240
      (1 / 20) (1 / 2) 0 "RenderError" rfl,
    claim_C8.2.2 [.error "RenderError", .ok bitmapBadW] "all" "white" 240
      (1 / 20) (1 / 2) 1 bitmapBadW
      "Bitmap must expose at least three color channels." rfl rfl⟩

/-- C6 evaluation: even a no-op rewrite (full retained list, conforming
    output name, `drop` policy) fails.  `rewrite_pdf` passes the keyword
    arguments `stamp_decisions`, `stamping_applied_pages`,
    `stamping_forced_pages` and `stamping_skipped_pages` to the
    `RewriteResult` dataclass, which declares none of them, so the
    constructed result raises TypeError instead of reporting
    `pages_output` — the rewriter never returns its result. -/
theorem claim_C6_code_bug :
    rewriteResultPassedKwargs.all
      (fun k => rewriteResultDataclassFields.contains k) = false ∧
    rewritePdf docW "sample.edited.pdf" [0] "drop" =
      .error "TypeError: unexpected keyword argument stamp_decisions" := by
  exact ⟨by decide, rfl⟩

/-- Consuming a literal from the front of a character list succeeds
    exactly on lists extending the literal. -/
theorem stripLit_eq_some (pat : List Char) :
    ∀ l rest, stripLit pat l = some rest ↔ l = pat ++ rest := by
  induction pat with
  | nil =>
    intro l rest
    simp [stripLit]
  | cons p ps ih =>
    intro l rest
    cases l with
    | nil => simp [stripLit]
    | cons c cs =>
      by_cases hc : c = p
      · subst hc
        simp [stripLit, ih]
      · simp [stripLit, hc]

/-- Characterisation of the digit alternative of the pattern tail. -/
theorem digitsDotPdf_iff (r : List Char) :
    digitsDotPdf r = true ↔
      ∃ ds, ds ≠ [] ∧ (∀ c ∈ ds, isAsciiDigit c = true) ∧
        r = ds ++ ['.', 'p', 'd', 'f'] := by
  induction r with
  | nil =>
    constructor
    · intro h
      exact absurd h (by simp [digitsDotPdf])
    · rintro ⟨ds, hne, _, habs⟩
      exact absurd habs.symm (by simp [hne])
  | cons c rest ih =>
    simp only [digitsDotPdf, Bool.and_eq_true, Bool.or_eq_true, beq_iff_eq]
    constructor
    · rintro ⟨hdig, hrest | hrec⟩
      · exact ⟨[c], by simp, by simpa using hdig, by simp [hrest]⟩
      · obtain ⟨ds, hne, hall, heq⟩ := ih.mp hrec
        refine ⟨c :: ds, by simp, ?_, by simp [heq]⟩
        intro x hx
        rcases List.mem_cons.mp hx with hx | hx
        · subst hx
          exact hdig
        · exact hall x hx
    · rintro ⟨ds, hne, hall, heq⟩
      cases ds with
      | nil => exact absurd rfl hne
      | cons d ds2 =>
        rw [List.cons_append] at heq
        injection heq with hc hrest
        subst hc
        refine ⟨hall c (by simp), ?_⟩
        cases ds2 with
        | nil =>
          left
          simpa using hrest
        | cons d2 ds3 =>
          right
          refine ih.mpr ⟨d2 :: ds3, by simp, ?_, hrest⟩
          intro x hx
          exact hall x (List.mem_cons_of_mem _ hx)

/-- Characterisation of the pattern tail after the literal `.edited`. -/
theorem editedTailMatch_iff (t : List Char) :
    editedTailMatch t = true ↔
      t = ['.', 'p', 'd', 'f'] ∨
      ∃ ds, ds ≠ [] ∧ (∀ c ∈ ds, isAsciiDigit c = true) ∧
        t = '.' :: (ds ++ ['.', 'p', 'd', 'f']) := by
  cases t with
  | nil => simp [editedTailMatch]
  | cons c rest =>
    simp only [editedTailMatch, Bool.and_eq_true, Bool.or_eq_true, beq_iff_eq,
      decide_eq_true_eq, digitsDotPdf_iff]
    constructor
    · rintro ⟨hdot, hpdf | ⟨ds, hne, hall, heq⟩⟩
      · subst hdot
        left
        rw [hpdf]
      · subst hdot
        right
        exact ⟨ds, hne, hall, by rw [heq]⟩
    · rintro (hpdf | ⟨ds, hne, hall, heq⟩)
      · injection hpdf with hc hrest
        exact ⟨hc, Or.inl hrest⟩
      · injection heq with hc hrest
        exact ⟨hc, Or.inr ⟨ds, hne, hall, hrest⟩⟩

/-- Characterisation of an anchored match of `EDITED_NAME_PATTERN`. -/
theorem editedMatchAt_iff (cs : List Char) :
    editedMatchAt cs = true ↔
      ∃ rest, cs = ".edited".data ++ rest ∧ editedTailMatch rest = true := by
  unfold editedMatchAt
  cases hstrip : stripLit ".edited".data cs with
  | none =>
    constructor
    · intro h
      exact absurd h (by simp)
    · rintro ⟨rest, heq, _⟩
      have := (stripLit_eq_some ".edited".data cs rest).mpr heq
      rw [hstrip] at this
      exact Option.noConfusion this
  | some rest0 =>
    have heq0 := (stripLit_eq_some ".edited".data cs rest0).mp hstrip
    constructor
    · intro h
      exact ⟨rest0, heq0, h⟩
    · rintro ⟨rest, heq, htail⟩
      have : rest0 = rest := by
        apply List.append_cancel_left
        rw [← heq0, ← heq]
      rw [this]
      exact htail

/-- Characterisation of `re.search` over the anchored pattern. -/
theorem editedSearch_iff (l : List Char) :
    editedSearch l = true ↔
      ∃ pre suf, l = pre ++ suf ∧ editedMatchAt suf = true := by
  induction l with
  | nil =>
    constructor
    · intro h
      exact absurd h (by simp [editedSearch])
    · rintro ⟨pre, suf, hps, hm⟩
      have hpre : pre = [] := by
        cases pre with
        | nil => rfl
        | cons p ps => exact absurd hps.symm (by simp)
      subst hpre
      have hsuf : suf = [] := by simpa using hps.symm
      subst hsuf
      exact absurd hm (by decide)
  | cons c rest ih =>
    simp only [editedSearch, Bool.or_eq_true, ih]
    constructor
    · rintro (hm | ⟨pre, suf, hps, hm⟩)
      · exact ⟨[], c :: rest, rfl, hm⟩
      · exact ⟨c :: pre, suf, by simp [hps], hm⟩
    · rintro ⟨pre, suf, hps, hm⟩
      cases pre with
      | nil =>
        left
        have : suf = c :: rest := by simpa using hps.symm
        rw [← this]
        exact hm
      | cons p ps =>
        right
        rw [List.cons_append] at hps
        injection hps with hc hrest
        exact ⟨ps, suf, hrest, hm⟩

/-- The regular-expression matcher of `EDITED_NAME_PATTERN` agrees with
    the specification-side reading of the output naming rule. -/
theorem editedNameSearch_iff (name : String) :
    editedNameSearch name = true ↔ ConformingEditedName name := by
  unfold editedNameSearch ConformingEditedName
  rw [editedSearch_iff]
  constructor
  · rintro ⟨pre, suf, hps, hm⟩
    obtain ⟨rest, hsuf, htail⟩ := (editedMatchAt_iff suf).mp hm
    rcases (editedTailMatch_iff rest).mp htail with hpdf | ⟨ds, hne, hall, hrest⟩
    · left
      refine ⟨pre, ?_⟩
      rw [hps, hsuf, hpdf]
      congr 1
    · right
      refine ⟨pre, ds, hne, hall, ?_⟩
      rw [hps, hsuf, hrest]
      simp
  · rintro (⟨stem, hstem⟩ | ⟨stem, ds, hne, hall, hstem⟩)
    · refine ⟨stem, ".edited.pdf".data, hstem, ?_⟩
      decide
    · refine ⟨stem, ".edited.".data ++ ds ++ ".pdf".data, by simpa using hstem, ?_⟩
      rw [editedMatchAt_iff]
      refine ⟨'.' :: (ds ++ ['.', 'p', 'd', 'f']), by simp, ?_⟩
      rw [editedTailMatch_iff]
      exact Or.inr ⟨ds, hne, hall, rfl⟩

/-- C10: implicit output-path precondition.  `_validate_output_path`
    accepts a filename exactly when (after case folding) it ends in
    `.edited.pdf` or `.edited.<n>.pdf` for a non-empty digit sequence
    `<n>`; and `rewrite_pdf` rejects every non-conforming output name
    with the validation ValueError before looking at the input document
    (the result is this error for every document and retained list). -/
theorem claim_C10 (name : String) :
    (validateOutputPath name = .ok () ↔ ConformingEditedName name) ∧
    (∀ (doc : PdfDocument) (pagesToKeep : List ℕ),
      ¬ ConformingEditedName name →
      rewritePdf doc name pagesToKeep "drop" =
        .error "Output path must follow the edited PDF naming scheme.") := by
  have hiff := editedNameSearch_iff name
  constructor
  · unfold validateOutputPath
    cases hb : editedNameSearch name
    · simp only [Bool.false_eq_true, if_false]
      constructor
      · intro habs
        exact absurd habs (by simp)
      · intro hc
        rw [← hiff] at hc
        rw [hb] at hc
        exact absurd hc (by simp)
    · simp only [if_true]
      constructor
      · intro _
        exact hiff.mp hb
      · intro _
        trivial
  · intro doc pagesToKeep hnc
    have hb : editedNameSearch name = false := by
      cases hbb : editedNameSearch name
      · rfl
      · exact absurd (hiff.mp hbb) hnc
    unfold rewritePdf validateOutputPath
    rw [if_neg (by simp)]
    rw [hb]
    simp

/-- Witness for C10: a mixed-case numbered name passes validation; a
    plain `.pdf` name is rejected by `rewrite_pdf` before the document is
    inspected. -/
theorem claim_C10_witness :
    validateOutputPath "chapter.EdItEd.12.pdf" = .ok () ∧
    rewritePdf docW "chapter.pdf" [0] "drop" =
      .error "Output path must follow the edited PDF naming scheme." := by
  constructor
  · refine (claim_C10 "chapter.EdItEd.12.pdf").1.mpr ?_
    right
    exact ⟨"chapter".data, "12".data, by decide, by decide, by decide⟩
  · refine (claim_C10 "chapter.pdf").2 docW [0] ?_
    intro hc
    have := (claim_C10 "chapter.pdf").1.mpr hc
    have hfalse : validateOutputPath "chapter.pdf" =
        .error "Output path must follow the edited PDF naming scheme." := rfl
    rw [hfalse] at this
    exact Except.noConfusion this

end PDFEditor
